import Mathlib

/-!
Shallow embedding of `py_simple_sharepoint/__init__.py` (class `SharePointClient`).

Strings are modelled as `List Char`, byte strings as `List Nat` (each entry a
byte value `< 256`).  External collaborators (the `cryptography` library's SHA-1
fingerprinting and RSA signing, `requests`' HTTP transport and `quote`, and the
`uuid`/`time` effects) are passed in as explicit function or data parameters;
everything else is translated from the source.
-/

/-- Strings of the Python source, modelled as lists of characters. -/
abbrev Str := List Char

/-- UTF-8 encoding of a string, as performed by Python's `str.encode`.  All
strings encoded by this program are ASCII (`json.dumps` keeps its default
`ensure_ascii=True` and the base64url alphabet is ASCII), where UTF-8 encoding
is the identity on code points. -/
def strBytes (s : Str) : List Nat := s.map Char.toNat

/-- The alphabet used by `base64.urlsafe_b64encode`: `A-Z`, `a-z`, `0-9`, `-`, `_`. -/
def b64Alphabet : Str :=
  "ABCDEFGHIJKLMNOPQRSTUVWXYZabcdefghijklmnopqrstuvwxyz0123456789-_".data

/-- The character the base64url encoder emits for a 6-bit group. -/
def b64urlChar (n : Nat) : Char := b64Alphabet.getD n '_'

/-- Whether a character belongs to the unpadded base64url alphabet. -/
def isB64UrlChar (c : Char) : Bool :=
  (65 ≤ c.toNat && c.toNat ≤ 90) || (97 ≤ c.toNat && c.toNat ≤ 122) ||
    (48 ≤ c.toNat && c.toNat ≤ 57) || c.toNat == 45 || c.toNat == 95

/-- `self._base64url_encode`: `base64.urlsafe_b64encode(data).rstrip(b"=")`,
decoded to a string.  Stripping the padding leaves 2 characters for a trailing
single byte and 3 characters for two trailing bytes. -/
def base64url_encode : List Nat → Str
  | [] => []
  | [a] => [b64urlChar (a / 4), b64urlChar (a % 4 * 16)]
  | [a, b] => [b64urlChar (a / 4), b64urlChar (a % 4 * 16 + b / 16), b64urlChar (b % 16 * 4)]
  | a :: b :: c :: rest =>
      b64urlChar (a / 4) :: b64urlChar (a % 4 * 16 + b / 16) ::
        b64urlChar (b % 16 * 4 + c / 64) :: b64urlChar (c % 64) :: base64url_encode rest

/-- The 6-bit value of a base64url character, if any. -/
def b64Val (c : Char) : Option Nat :=
  if 65 ≤ c.toNat ∧ c.toNat ≤ 90 then some (c.toNat - 65)
  else if 97 ≤ c.toNat ∧ c.toNat ≤ 122 then some (c.toNat - 71)
  else if 48 ≤ c.toNat ∧ c.toNat ≤ 57 then some (c.toNat + 4)
  else if c.toNat = 45 then some 62
  else if c.toNat = 95 then some 63
  else none

/-- Decoder for unpadded base64url text (the inverse direction of
`base64url_encode`, used to state what the segments of the produced JWT
decode to). -/
def base64urlDecode : Str → Option (List Nat)
  | [] => some []
  | [_] => none
  | [c1, c2] => do
      let v1 ← b64Val c1
      let v2 ← b64Val c2
      pure [v1 * 4 + v2 / 16]
  | [c1, c2, c3] => do
      let v1 ← b64Val c1
      let v2 ← b64Val c2
      let v3 ← b64Val c3
      pure [v1 * 4 + v2 / 16, v2 % 16 * 16 + v3 / 4]
  | c1 :: c2 :: c3 :: c4 :: rest => do
      let v1 ← b64Val c1
      let v2 ← b64Val c2
      let v3 ← b64Val c3
      let v4 ← b64Val c4
      let tail ← base64urlDecode rest
      pure ((v1 * 4 + v2 / 16) :: (v2 % 16 * 16 + v3 / 4) :: (v3 % 4 * 64 + v4) :: tail)

theorem b64urlChar_isB64 (n : Nat) : isB64UrlChar (b64urlChar n) = true := by
  by_cases h : n < 64
  · exact (by decide : ∀ m, m < 64 → isB64UrlChar (b64urlChar m) = true) n h
  · have hlen : b64Alphabet.length ≤ n := by
      have : b64Alphabet.length = 64 := by decide
      omega
    unfold b64urlChar
    rw [List.getD_eq_default _ _ hlen]
    decide

theorem b64Val_b64urlChar {n : Nat} (h : n < 64) : b64Val (b64urlChar n) = some n :=
  (by decide : ∀ m, m < 64 → b64Val (b64urlChar m) = some m) n h

theorem isB64UrlChar_toNat_lt {c : Char} (h : isB64UrlChar c = true) : c.toNat < 128 := by
  simp only [isB64UrlChar, Bool.or_eq_true, Bool.and_eq_true, decide_eq_true_eq,
    beq_iff_eq] at h
  omega

theorem base64url_encode_mem {bs : List Nat} {c : Char}
    (hc : c ∈ base64url_encode bs) : isB64UrlChar c = true := by
  induction bs using base64url_encode.induct with
  | case1 => simp [base64url_encode] at hc
  | case2 a =>
      simp only [base64url_encode, List.mem_cons, List.not_mem_nil, or_false] at hc
      rcases hc with h | h <;> (subst h; exact b64urlChar_isB64 _)
  | case3 a b =>
      simp only [base64url_encode, List.mem_cons, List.not_mem_nil, or_false] at hc
      rcases hc with h | h | h <;> (subst h; exact b64urlChar_isB64 _)
  | case4 a b c' rest ih =>
      simp only [base64url_encode, List.mem_cons] at hc
      rcases hc with h | h | h | h | h
      · subst h; exact b64urlChar_isB64 _
      · subst h; exact b64urlChar_isB64 _
      · subst h; exact b64urlChar_isB64 _
      · subst h; exact b64urlChar_isB64 _
      · exact ih h

theorem base64url_encode_ne_nil {bs : List Nat} (h : bs ≠ []) :
    base64url_encode bs ≠ [] := by
  match bs with
  | [] => exact absurd rfl h
  | [a] => simp [base64url_encode]
  | [a, b] => simp [base64url_encode]
  | a :: b :: c :: rest => simp [base64url_encode]

theorem base64url_roundtrip :
    ∀ bs : List Nat, (∀ b ∈ bs, b < 256) →
      base64urlDecode (base64url_encode bs) = some bs := by
  intro bs
  induction bs using base64url_encode.induct with
  | case1 => intro _; rfl
  | case2 a =>
      intro hb
      have ha : a < 256 := hb a (by simp)
      have h1 := b64Val_b64urlChar (n := a / 4) (by omega)
      have h2 := b64Val_b64urlChar (n := a % 4 * 16) (by omega)
      simp only [base64url_encode, base64urlDecode, h1, h2, Option.bind_eq_bind,
        Option.some_bind, Option.some.injEq, List.cons.injEq, and_true, pure]
      omega
  | case3 a b =>
      intro hb
      have ha : a < 256 := hb a (by simp)
      have hbb : b < 256 := hb b (by simp)
      have h1 := b64Val_b64urlChar (n := a / 4) (by omega)
      have h2 := b64Val_b64urlChar (n := a % 4 * 16 + b / 16) (by omega)
      have h3 := b64Val_b64urlChar (n := b % 16 * 4) (by omega)
      simp only [base64url_encode, base64urlDecode, h1, h2, h3, Option.bind_eq_bind,
        Option.some_bind, Option.some.injEq, List.cons.injEq, and_true, pure]
      omega
  | case4 a b c rest ih =>
      intro hb
      have ha : a < 256 := hb a (by simp)
      have hbb : b < 256 := hb b (by simp)
      have hc : c < 256 := hb c (by simp)
      have h1 := b64Val_b64urlChar (n := a / 4) (by omega)
      have h2 := b64Val_b64urlChar (n := a % 4 * 16 + b / 16) (by omega)
      have h3 := b64Val_b64urlChar (n := b % 16 * 4 + c / 64) (by omega)
      have h4 := b64Val_b64urlChar (n := c % 64) (by omega)
      have htail : base64urlDecode (base64url_encode rest) = some rest :=
        ih (fun x hx => hb x (by simp [hx]))
      match hrest : base64url_encode rest with
      | [] =>
          rw [hrest] at htail
          simp only [base64url_encode, hrest, base64urlDecode, h1, h2, h3, h4,
            Option.bind_eq_bind, Option.some_bind, htail, Option.some.injEq,
            List.cons.injEq, and_true, pure]
          omega
      | c1 :: tl =>
          rw [hrest] at htail
          simp only [base64url_encode, hrest, base64urlDecode, h1, h2, h3, h4,
            Option.bind_eq_bind, Option.some_bind, htail, Option.some.injEq,
            List.cons.injEq, and_true, pure]
          omega

/-- JSON values occurring in the JWT header and payload: strings and integers. -/
inductive JVal
  | s (v : Str)
  | i (v : Int)
deriving DecidableEq

/-- A JSON object, as a Python dict in insertion order (Python 3.7+ dicts keep
insertion order and `json.dumps` serializes entries in that order). -/
abbrev JObj := List (Str × JVal)

/-- Lowercase hexadecimal digit, as used by `json.dumps` in escapes. -/
def hexDigit (m : Nat) : Char :=
  if m < 10 then Char.ofNat (48 + m) else Char.ofNat (87 + m)

/-- How `json.dumps` (default `ensure_ascii=True`) escapes one character of a
string: `"` and `\` get a backslash, the control characters with short escapes
use them, other characters in the printable ASCII range `0x20`-`0x7e` pass
through, and everything else becomes `\uXXXX` escapes (a surrogate pair for
code points above `0xFFFF`). -/
def escChar (c : Char) : Str :=
  if c.toNat = 34 then ['\\', '"']
  else if c.toNat = 92 then ['\\', '\\']
  else if c.toNat = 8 then ['\\', 'b']
  else if c.toNat = 9 then ['\\', 't']
  else if c.toNat = 10 then ['\\', 'n']
  else if c.toNat = 12 then ['\\', 'f']
  else if c.toNat = 13 then ['\\', 'r']
  else if 32 ≤ c.toNat ∧ c.toNat ≤ 126 then [c]
  else if c.toNat < 65536 then
    ['\\', 'u', hexDigit (c.toNat / 4096 % 16), hexDigit (c.toNat / 256 % 16),
      hexDigit (c.toNat / 16 % 16), hexDigit (c.toNat % 16)]
  else
    ['\\', 'u', hexDigit ((55296 + (c.toNat - 65536) / 1024) / 4096 % 16),
      hexDigit ((55296 + (c.toNat - 65536) / 1024) / 256 % 16),
      hexDigit ((55296 + (c.toNat - 65536) / 1024) / 16 % 16),
      hexDigit ((55296 + (c.toNat - 65536) / 1024) % 16),
      '\\', 'u', hexDigit ((56320 + (c.toNat - 65536) % 1024) / 4096 % 16),
      hexDigit ((56320 + (c.toNat - 65536) % 1024) / 256 % 16),
      hexDigit ((56320 + (c.toNat - 65536) % 1024) / 16 % 16),
      hexDigit ((56320 + (c.toNat - 65536) % 1024) % 16)]

/-- JSON string-body escaping, character by character. -/
def escString : Str → Str
  | [] => []
  | c :: rest => escChar c ++ escString rest

/-- Serialization of a single JSON value (`json.dumps` renders integers with
Python's `repr`). -/
def dumpJVal : JVal → Str
  | .s v => '"' :: escString v ++ ['"']
  | .i v => (toString v).data

/-- Serialization of one `key:value` entry with the `(",", ":")` separators
passed by the source (no inserted whitespace). -/
def dumpPair (p : Str × JVal) : Str :=
  '"' :: escString p.1 ++ ['"', ':'] ++ dumpJVal p.2

/-- The comma-separated entry list of a serialized object. -/
def dumpEntries : List (Str × JVal) → Str
  | [] => []
  | [p] => dumpPair p
  | p :: q :: rest => dumpPair p ++ ',' :: dumpEntries (q :: rest)

/-- Compact JSON serialization of an object, as produced by
`json.dumps(obj, separators=(",", ":"))`. -/
def dumpObj (o : JObj) : Str := '{' :: dumpEntries o ++ ['}']

/-- Lookup of a key in a JSON object (first entry wins, as in a Python dict
where keys are unique). -/
def jlookup (o : JObj) (k : Str) : Option JVal :=
  match o with
  | [] => none
  | (k', v) :: rest => if k' = k then some v else jlookup rest k

theorem escChar_of_b64 {c : Char} (h : isB64UrlChar c = true) : escChar c = [c] := by
  simp only [isB64UrlChar, Bool.or_eq_true, Bool.and_eq_true, decide_eq_true_eq,
    beq_iff_eq] at h
  unfold escChar
  split_ifs <;> first | rfl | omega

theorem escString_of_b64 {s : Str} (h : ∀ c ∈ s, isB64UrlChar c = true) :
    escString s = s := by
  induction s with
  | nil => rfl
  | cons c rest ih =>
      simp only [escString, escChar_of_b64 (h c (by simp)),
        ih (fun x hx => h x (by simp [hx])), List.cons_append, List.nil_append]

/-- The parsed X.509 certificate, exposed through its DER byte encoding (what
`cryptography`'s `fingerprint` hashes). -/
structure Certificate where
  der : List Nat

/-- The effects one call of `_new_jwt_client_assertion` performs, made
explicit: `t1` is the first `int(time.time())` reading (line `nbf = ...`),
`t2` the second reading (line `exp = ...`), and `jti` the freshly generated
`str(uuid.uuid4())`. -/
structure AssertionEnv where
  t1 : Int
  t2 : Int
  jti : Str

/-- `aud = f"https://login.microsoftonline.com/{tenant_id}/oauth2/v2.0/token"`. -/
def audStr (tenant_id : Str) : Str :=
  "https://login.microsoftonline.com/".data ++ tenant_id ++ "/oauth2/v2.0/token".data

/-- The `header` dict of `_new_jwt_client_assertion`.  The `sha1` parameter is
the external digest function: `certificate.fingerprint(hashes.SHA1())` is the
SHA-1 digest of the certificate's DER encoding. -/
def jwtHeader (sha1 : List Nat → List Nat) (cert : Certificate) : JObj :=
  [("alg".data, .s "RS256".data),
   ("typ".data, .s "JWT".data),
   ("x5t".data, .s (base64url_encode (sha1 cert.der)))]

/-- The `payload` dict of `_new_jwt_client_assertion`:
`nbf = int(time.time()) - 60` uses the first clock reading and
`exp = int(time.time()) + 300` the second. -/
def jwtPayload (tenant_id client_id : Str) (e : AssertionEnv) : JObj :=
  [("iss".data, .s client_id),
   ("sub".data, .s client_id),
   ("aud".data, .s (audStr tenant_id)),
   ("nbf".data, .i (e.t1 - 60)),
   ("exp".data, .i (e.t2 + 300)),
   ("jti".data, .s e.jti)]

/-- `header_b64 = self._base64url_encode(json.dumps(header, separators=(",", ":")).encode())`. -/
def header_b64 (sha1 : List Nat → List Nat) (cert : Certificate) : Str :=
  base64url_encode (strBytes (dumpObj (jwtHeader sha1 cert)))

/-- `payload_b64 = self._base64url_encode(json.dumps(payload, separators=(",", ":")).encode())`. -/
def payload_b64 (tenant_id client_id : Str) (e : AssertionEnv) : Str :=
  base64url_encode (strBytes (dumpObj (jwtPayload tenant_id client_id e)))

/-- `unsigned = f"{header_b64}.{payload_b64}"`. -/
def unsigned_str (sha1 : List Nat → List Nat) (tenant_id client_id : Str)
    (cert : Certificate) (e : AssertionEnv) : Str :=
  header_b64 sha1 cert ++ '.' :: payload_b64 tenant_id client_id e

/-- `unsigned.encode("ascii")`: the byte string handed to `private_key.sign`. -/
def signingInput (sha1 : List Nat → List Nat) (tenant_id client_id : Str)
    (cert : Certificate) (e : AssertionEnv) : List Nat :=
  strBytes (unsigned_str sha1 tenant_id client_id cert e)

/-- `_new_jwt_client_assertion`: returns `f"{unsigned}.{sig_b64}"` where
`sig_b64` base64url-encodes the RSASSA-PKCS1-v1_5/SHA-256 signature produced
by the external `sign` function (the `cryptography` private-key object). -/
def new_jwt_client_assertion (sha1 sign : List Nat → List Nat)
    (tenant_id client_id : Str) (cert : Certificate) (e : AssertionEnv) : Str :=
  unsigned_str sha1 tenant_id client_id cert e ++
    '.' :: base64url_encode (sign (signingInput sha1 tenant_id client_id cert e))

/-- Everything of the serialized header before the `x5t` value. -/
def hdrOpen : Str := '{' :: "\"alg\":\"RS256\",\"typ\":\"JWT\",\"x5t\":\"".data

/-- Everything of the serialized header after the `x5t` value. -/
def hdrClose : Str := ['"', '}']

theorem hdrOpen_eq :
    hdrOpen = '{' :: '"' :: "alg".data ++ '"' :: ':' :: '"' :: "RS256".data ++
      '"' :: ',' :: '"' :: "typ".data ++ '"' :: ':' :: '"' :: "JWT".data ++
      '"' :: ',' :: '"' :: "x5t".data ++ ['"', ':', '"'] := by decide

/-- The serialized header is the compact JSON object with the base64url SHA-1
fingerprint substituted verbatim as the `x5t` value: no whitespace is inserted
anywhere. -/
theorem dumpObj_jwtHeader (sha1 : List Nat → List Nat) (cert : Certificate) :
    dumpObj (jwtHeader sha1 cert) =
      hdrOpen ++ base64url_encode (sha1 cert.der) ++ hdrClose := by
  have hx : escString (base64url_encode (sha1 cert.der)) = base64url_encode (sha1 cert.der) :=
    escString_of_b64 (fun c hc => base64url_encode_mem hc)
  have e1 : escString "alg".data = "alg".data := by decide
  have e2 : escString "RS256".data = "RS256".data := by decide
  have e3 : escString "typ".data = "typ".data := by decide
  have e4 : escString "JWT".data = "JWT".data := by decide
  have e5 : escString "x5t".data = "x5t".data := by decide
  simp only [dumpObj, dumpEntries, dumpPair, dumpJVal, jwtHeader, hx, e1, e2, e3, e4, e5,
    hdrOpen_eq, hdrClose, List.append_assoc, List.cons_append, List.nil_append]

theorem dumpObj_jwtHeader_ascii (sha1 : List Nat → List Nat) (cert : Certificate) :
    ∀ c ∈ dumpObj (jwtHeader sha1 cert), c.toNat < 128 := by
  intro c hc
  rw [dumpObj_jwtHeader] at hc
  simp only [List.mem_append] at hc
  rcases hc with (h | h) | h
  · exact (by decide : ∀ x ∈ hdrOpen, x.toNat < 128) c h
  · exact isB64UrlChar_toNat_lt (base64url_encode_mem h)
  · exact (by decide : ∀ x ∈ hdrClose, x.toNat < 128) c h

/-- Claim C2: the first segment of the assertion, base64url-decoded, is the
byte string of the compact JSON header
`\x7b"alg":"RS256","typ":"JWT","x5t":<fingerprint>\x7d` with no inserted
whitespace, where the `x5t` value is the unpadded base64url encoding of the
SHA-1 digest (`sha1`) of the certificate's DER encoding. -/
theorem jwt_header_decodes (sha1 : List Nat → List Nat) (cert : Certificate) :
    base64urlDecode (header_b64 sha1 cert) =
      some (strBytes (hdrOpen ++ base64url_encode (sha1 cert.der) ++ hdrClose)) := by
  have hbytes : ∀ b ∈ strBytes (dumpObj (jwtHeader sha1 cert)), b < 256 := by
    intro b hb
    simp only [strBytes, List.mem_map] at hb
    obtain ⟨c, hc, rfl⟩ := hb
    have := dumpObj_jwtHeader_ascii sha1 cert c hc
    omega
  rw [header_b64, base64url_roundtrip _ hbytes, dumpObj_jwtHeader]

/-- Claim C1 (amended): `nbf` is the first clock reading minus 60 and `exp`
the second clock reading plus 300, so under a monotone clock
`nbf ≤ exp - 360`, with equality exactly when both `int(time.time())` calls
return the same second. -/
theorem nbf_exp_window (tenant_id client_id : Str) (e : AssertionEnv)
    (h : e.t1 ≤ e.t2) :
    jlookup (jwtPayload tenant_id client_id e) "nbf".data = some (.i (e.t1 - 60)) ∧
    jlookup (jwtPayload tenant_id client_id e) "exp".data = some (.i (e.t2 + 300)) ∧
    e.t1 - 60 ≤ e.t2 + 300 - 360 ∧
    (e.t1 = e.t2 → e.t1 - 60 = e.t2 + 300 - 360) :=
  ⟨rfl, rfl, by omega, fun _ => by omega⟩

/-- Witness for `nbf_exp_window` at a run whose two clock readings agree. -/
theorem nbf_exp_window_w :
    ((50 : Int) ≤ 50) ∧
    (jlookup (jwtPayload [] [] ⟨50, 50, []⟩) "nbf".data = some (.i ((50 : Int) - 60)) ∧
     jlookup (jwtPayload [] [] ⟨50, 50, []⟩) "exp".data = some (.i ((50 : Int) + 300)) ∧
     (50 : Int) - 60 ≤ (50 : Int) + 300 - 360 ∧
     ((50 : Int) = 50 → (50 : Int) - 60 = (50 : Int) + 300 - 360)) :=
  ⟨by decide, nbf_exp_window [] [] ⟨50, 50, []⟩ (by decide)⟩

/-- Counterexample to claim C1 as stated: on the run whose first
`int(time.time())` call returns 1000 and whose second returns 1001 (the clock
ticked between the two calls on lines 57-58), the decoded payload has
`nbf = 940` and `exp = 1301`, and `nbf ≠ exp - 360`. -/
theorem nbf_exp_not_always_exact :
    ((1000 : Int) ≤ 1001) ∧
    jlookup (jwtPayload [] [] ⟨1000, 1001, []⟩) "nbf".data = some (.i 940) ∧
    jlookup (jwtPayload [] [] ⟨1000, 1001, []⟩) "exp".data = some (.i 1301) ∧
    ((940 : Int) ≠ 1301 - 360) := by decide

/-- Claim C5: the payload carries exactly the keys
`iss, sub, aud, nbf, exp, jti` in insertion order and no others, `iss` and
`sub` are the client id, and `aud` is the token-endpoint template with the
tenant id substituted verbatim. -/
theorem jwt_payload_claims (tenant_id client_id : Str) (e : AssertionEnv) :
    (jwtPayload tenant_id client_id e).map Prod.fst =
      ["iss".data, "sub".data, "aud".data, "nbf".data, "exp".data, "jti".data] ∧
    jlookup (jwtPayload tenant_id client_id e) "iss".data = some (.s client_id) ∧
    jlookup (jwtPayload tenant_id client_id e) "sub".data = some (.s client_id) ∧
    jlookup (jwtPayload tenant_id client_id e) "aud".data =
      some (.s ("https://login.microsoftonline.com/".data ++ tenant_id ++
        "/oauth2/v2.0/token".data)) ∧
    jlookup (jwtPayload tenant_id client_id e) "jti".data = some (.s e.jti) :=
  ⟨rfl, rfl, rfl, rfl, rfl⟩

/-- Claim C6: two immediately successive runs (monotone clock readings,
distinct freshly drawn `uuid4` values) decode to payloads with different
`jti`, non-decreasing `nbf` and `exp`, the identical header, and the same
payload key set. -/
theorem jwt_successive_runs (sha1 : List Nat → List Nat)
    (tenant_id client_id : Str) (cert : Certificate) (e1 e2 : AssertionEnv)
    (h1 : e1.t1 ≤ e1.t2) (h12 : e1.t2 ≤ e2.t1) (h2 : e2.t1 ≤ e2.t2)
    (hjti : e1.jti ≠ e2.jti) :
    jlookup (jwtPayload tenant_id client_id e1) "jti".data ≠
      jlookup (jwtPayload tenant_id client_id e2) "jti".data ∧
    jlookup (jwtPayload tenant_id client_id e1) "nbf".data = some (.i (e1.t1 - 60)) ∧
    jlookup (jwtPayload tenant_id client_id e2) "nbf".data = some (.i (e2.t1 - 60)) ∧
    e1.t1 - 60 ≤ e2.t1 - 60 ∧
    jlookup (jwtPayload tenant_id client_id e1) "exp".data = some (.i (e1.t2 + 300)) ∧
    jlookup (jwtPayload tenant_id client_id e2) "exp".data = some (.i (e2.t2 + 300)) ∧
    e1.t2 + 300 ≤ e2.t2 + 300 ∧
    jwtHeader sha1 cert = jwtHeader sha1 cert ∧
    (jwtPayload tenant_id client_id e1).map Prod.fst =
      (jwtPayload tenant_id client_id e2).map Prod.fst := by
  refine ⟨?_, rfl, rfl, by omega, rfl, rfl, by omega, rfl, rfl⟩
  intro hcontra
  rw [show jlookup (jwtPayload tenant_id client_id e1) "jti".data = some (.s e1.jti) from rfl,
    show jlookup (jwtPayload tenant_id client_id e2) "jti".data = some (.s e2.jti) from rfl]
    at hcontra
  simp only [Option.some.injEq, JVal.s.injEq] at hcontra
  exact hjti hcontra

/-- A concrete stand-in for the external SHA-1 digest, used by witnesses. -/
def wSha1 : List Nat → List Nat := fun _ => [1, 2, 3]

/-- A concrete stand-in for the external RSA signing function, used by
witnesses. -/
def wSign : List Nat → List Nat := fun _ => [7]

/-- A concrete verifier matching `wSign`, used by witnesses. -/
def wVerify : Nat → List Nat → List Nat → Bool := fun _ _ s => s == [7]

/-- A concrete certificate, used by witnesses. -/
def wCert : Certificate := ⟨[48, 1]⟩

/-- A concrete effect environment for a first run, used by witnesses. -/
def wEnv1 : AssertionEnv := ⟨100, 100, "a".data⟩

/-- A concrete effect environment for an immediately following run, used by
witnesses. -/
def wEnv2 : AssertionEnv := ⟨101, 101, "b".data⟩

/-- Witness for `jwt_successive_runs` on two concrete successive runs. -/
theorem jwt_successive_runs_w :
    (wEnv1.t1 ≤ wEnv1.t2 ∧ wEnv1.t2 ≤ wEnv2.t1 ∧ wEnv2.t1 ≤ wEnv2.t2 ∧
      wEnv1.jti ≠ wEnv2.jti) ∧
    (jlookup (jwtPayload [] [] wEnv1) "jti".data ≠
      jlookup (jwtPayload [] [] wEnv2) "jti".data ∧
    jlookup (jwtPayload [] [] wEnv1) "nbf".data = some (.i (wEnv1.t1 - 60)) ∧
    jlookup (jwtPayload [] [] wEnv2) "nbf".data = some (.i (wEnv2.t1 - 60)) ∧
    wEnv1.t1 - 60 ≤ wEnv2.t1 - 60 ∧
    jlookup (jwtPayload [] [] wEnv1) "exp".data = some (.i (wEnv1.t2 + 300)) ∧
    jlookup (jwtPayload [] [] wEnv2) "exp".data = some (.i (wEnv2.t2 + 300)) ∧
    wEnv1.t2 + 300 ≤ wEnv2.t2 + 300 ∧
    jwtHeader wSha1 wCert = jwtHeader wSha1 wCert ∧
    (jwtPayload [] [] wEnv1).map Prod.fst = (jwtPayload [] [] wEnv2).map Prod.fst) :=
  ⟨⟨by decide, by decide, by decide, by decide⟩,
    jwt_successive_runs wSha1 [] [] wCert wEnv1 wEnv2
      (by decide) (by decide) (by decide) (by decide)⟩

/-- Claim C3: the produced assertion is exactly three non-empty
dot-separated segments; every character of every segment lies in the
base64url alphabet, which contains neither `.` (so the split is exactly in
three) nor `=` (so the segments are unpadded). -/
theorem assertion_three_segments (sha1 sign : List Nat → List Nat)
    (tenant_id client_id : Str) (cert : Certificate) (e : AssertionEnv)
    (hsig : sign (signingInput sha1 tenant_id client_id cert e) ≠ []) :
    new_jwt_client_assertion sha1 sign tenant_id client_id cert e =
      header_b64 sha1 cert ++ '.' :: (payload_b64 tenant_id client_id e ++
        '.' :: base64url_encode (sign (signingInput sha1 tenant_id client_id cert e))) ∧
    header_b64 sha1 cert ≠ [] ∧
    payload_b64 tenant_id client_id e ≠ [] ∧
    base64url_encode (sign (signingInput sha1 tenant_id client_id cert e)) ≠ [] ∧
    (∀ c ∈ header_b64 sha1 cert, isB64UrlChar c = true) ∧
    (∀ c ∈ payload_b64 tenant_id client_id e, isB64UrlChar c = true) ∧
    (∀ c ∈ base64url_encode (sign (signingInput sha1 tenant_id client_id cert e)),
      isB64UrlChar c = true) ∧
    isB64UrlChar '.' = false ∧ isB64UrlChar '=' = false := by
  refine ⟨?_, ?_, ?_, base64url_encode_ne_nil hsig,
    fun c hc => base64url_encode_mem hc, fun c hc => base64url_encode_mem hc,
    fun c hc => base64url_encode_mem hc, by decide, by decide⟩
  · simp [new_jwt_client_assertion, unsigned_str, List.append_assoc]
  · apply base64url_encode_ne_nil
    simp [strBytes, dumpObj]
  · apply base64url_encode_ne_nil
    simp [strBytes, dumpObj]

/-- Witness for `assertion_three_segments` at concrete inputs. -/
theorem assertion_three_segments_w :
    (wSign (signingInput wSha1 [] [] wCert wEnv1) ≠ []) ∧
    (new_jwt_client_assertion wSha1 wSign [] [] wCert wEnv1 =
      header_b64 wSha1 wCert ++ '.' :: (payload_b64 [] [] wEnv1 ++
        '.' :: base64url_encode (wSign (signingInput wSha1 [] [] wCert wEnv1))) ∧
    header_b64 wSha1 wCert ≠ [] ∧
    payload_b64 [] [] wEnv1 ≠ [] ∧
    base64url_encode (wSign (signingInput wSha1 [] [] wCert wEnv1)) ≠ [] ∧
    (∀ c ∈ header_b64 wSha1 wCert, isB64UrlChar c = true) ∧
    (∀ c ∈ payload_b64 [] [] wEnv1, isB64UrlChar c = true) ∧
    (∀ c ∈ base64url_encode (wSign (signingInput wSha1 [] [] wCert wEnv1)),
      isB64UrlChar c = true) ∧
    isB64UrlChar '.' = false ∧ isB64UrlChar '=' = false) :=
  ⟨by decide, assertion_three_segments wSha1 wSign [] [] wCert wEnv1 (by decide)⟩

/-- Claim C4: the third segment is the unpadded base64url encoding of the
signature computed by the private key over the ASCII bytes of
`header.payload`; decoding it gives back exactly those signature bytes, and
for any verifier that is correct for the key pair (RSASSA-PKCS1-v1_5/SHA-256
verification against the certificate's public key), verification of the
signing input succeeds. -/
theorem jwt_signature_verifies {PK : Type} (pub : PK)
    (verify : PK → List Nat → List Nat → Bool)
    (sha1 sign : List Nat → List Nat) (tenant_id client_id : Str)
    (cert : Certificate) (e : AssertionEnv)
    (hcorrect : ∀ m, verify pub m (sign m) = true)
    (hbytes : ∀ b ∈ sign (signingInput sha1 tenant_id client_id cert e), b < 256) :
    new_jwt_client_assertion sha1 sign tenant_id client_id cert e =
      unsigned_str sha1 tenant_id client_id cert e ++
        '.' :: base64url_encode (sign (signingInput sha1 tenant_id client_id cert e)) ∧
    signingInput sha1 tenant_id client_id cert e =
      strBytes (unsigned_str sha1 tenant_id client_id cert e) ∧
    base64urlDecode
        (base64url_encode (sign (signingInput sha1 tenant_id client_id cert e))) =
      some (sign (signingInput sha1 tenant_id client_id cert e)) ∧
    verify pub (signingInput sha1 tenant_id client_id cert e)
      (sign (signingInput sha1 tenant_id client_id cert e)) = true :=
  ⟨rfl, rfl, base64url_roundtrip _ hbytes, hcorrect _⟩

/-- Witness for `jwt_signature_verifies` at concrete inputs. -/
theorem jwt_signature_verifies_w :
    new_jwt_client_assertion wSha1 wSign [] [] wCert wEnv1 =
      unsigned_str wSha1 [] [] wCert wEnv1 ++
        '.' :: base64url_encode (wSign (signingInput wSha1 [] [] wCert wEnv1)) ∧
    signingInput wSha1 [] [] wCert wEnv1 =
      strBytes (unsigned_str wSha1 [] [] wCert wEnv1) ∧
    base64urlDecode
        (base64url_encode (wSign (signingInput wSha1 [] [] wCert wEnv1))) =
      some (wSign (signingInput wSha1 [] [] wCert wEnv1)) ∧
    wVerify 0 (signingInput wSha1 [] [] wCert wEnv1)
      (wSign (signingInput wSha1 [] [] wCert wEnv1)) = true :=
  jwt_signature_verifies 0 wVerify wSha1 wSign [] [] wCert wEnv1
    (fun _ => rfl) (by decide)

/-- An opaque handle to a parsed RSA private key object (the result of
`serialization.load_pem_private_key`); its content is irrelevant to the
constructor's control flow. -/
structure PrivateKey where
  handle : Nat

/-- One network interaction performed through `requests`. -/
inductive NetCall
  | post (url : Str)
  | get (url : Str)
deriving DecidableEq

/-- How `SharePointClient.__init__` can fail, mapped from the exceptions the
Python code raises. `keyLoadError` is the `ValueError` propagating out of
`load_pem_private_key`; `certLoadError` the `ValueError` out of the
certificate loaders; `httpStatusError` a `raise_for_status` failure;
`missingAccessToken` the `KeyError` on `resp.json()["access_token"]`;
`siteResolveError` and `driveNotFoundError` the two explicit `raise
Exception(...)` statements. -/
inductive InitError
  | keyLoadError
  | certLoadError
  | httpStatusError (code : Nat)
  | missingAccessToken
  | siteResolveError
  | driveNotFoundError
deriving DecidableEq

/-- The response of the token endpoint POST, as read by `_get_access_token`. -/
structure TokenResp where
  status : Nat
  accessToken : Option Str

/-- The response of the site resolution GET, as read by `_resolve_site`:
whether `"id" in site`, and the id if present. -/
structure SiteResp where
  hasId : Bool
  siteId : Str

/-- The response of the drives GET, as read by `_resolve_drive`: the
`(name, id)` pairs under `"value"`. -/
structure DrivesResp where
  driveNames : List (Str × Str)

/-- The instance fields a successful `__init__` caches. -/
structure ClientState where
  access_token : Str
  site_id : Str
  drive_id : Str
deriving DecidableEq

/-- The token endpoint URL used by `_get_access_token`. -/
def tokenEndpoint (tenant_id : Str) : Str :=
  "https://login.microsoftonline.com/".data ++ tenant_id ++ "/oauth2/v2.0/token".data

/-- The site resolution URL used by `_resolve_site`. -/
def siteResolveUrl (site_hostname site_path : Str) : Str :=
  "https://graph.microsoft.com/v1.0/sites/".data ++ site_hostname ++ ':' :: site_path

/-- The drives URL used by `_resolve_drive`. -/
def drivesUrl (site_id : Str) : Str :=
  "https://graph.microsoft.com/v1.0/sites/".data ++ site_id ++ "/drives".data

/-- `SharePointClient.__init__`, with its effects made explicit: key and
certificate parsing outcomes come in as `Option`s (`none` models the parse
exception), HTTP responses as data.  The result is the constructor's outcome
together with the ordered list of network calls it issued before returning or
raising.  `_load_key_and_cert` runs first and performs no network I/O; the
token POST, site GET and drives GET follow in that order. -/
def client_init (tenant_id site_hostname site_path library_title : Str)
    (keyLoad : Option PrivateKey) (certLoad : Option Certificate)
    (tokenResp : TokenResp) (siteResp : SiteResp) (drivesResp : DrivesResp) :
    Except InitError ClientState × List NetCall :=
  match keyLoad with
  | none => (.error .keyLoadError, [])
  | some _ =>
    match certLoad with
    | none => (.error .certLoadError, [])
    | some _ =>
      let calls1 := [NetCall.post (tokenEndpoint tenant_id)]
      if 400 ≤ tokenResp.status ∧ tokenResp.status < 600 then
        (.error (.httpStatusError tokenResp.status), calls1)
      else
        match tokenResp.accessToken with
        | none => (.error .missingAccessToken, calls1)
        | some tok =>
          let calls2 := calls1 ++ [NetCall.get (siteResolveUrl site_hostname site_path)]
          if siteResp.hasId = false then (.error .siteResolveError, calls2)
          else
            let calls3 := calls2 ++ [NetCall.get (drivesUrl siteResp.siteId)]
            match drivesResp.driveNames.find? (fun p => p.1 == library_title) with
            | none => (.error .driveNotFoundError, calls3)
            | some d => (.ok ⟨tok, siteResp.siteId, d.2⟩, calls3)

/-- Claim C7: when the private key fails to parse, the constructor surfaces
the key-load error with an empty list of network calls: no token request or
any other HTTP call is ever issued. -/
theorem keyload_failure_no_network (tenant_id site_hostname site_path library_title : Str)
    (certLoad : Option Certificate) (tokenResp : TokenResp) (siteResp : SiteResp)
    (drivesResp : DrivesResp) :
    client_init tenant_id site_hostname site_path library_title none certLoad
        tokenResp siteResp drivesResp =
      (.error .keyLoadError, []) := rfl

/-- The piece of a Graph JSON body that the folder-listing code reads: the
`"id"` of a resolved item. -/
structure GraphBody where
  itemId : Str
deriving DecidableEq

/-- An HTTP response as consumed by the folder and file operations. -/
structure HttpResp where
  status : Nat
  body : GraphBody
deriving DecidableEq

/-- Python's `str.strip()` whitespace test, for the ASCII whitespace
characters. -/
def pySpace (c : Char) : Bool :=
  c == ' ' || c == '\t' || c == '\n' || c == '\r' || c.toNat == 11 || c.toNat == 12

/-- Python's `str.strip()` (no argument): drop whitespace from both ends. -/
def pyStrip (s : Str) : Str :=
  ((s.dropWhile pySpace).reverse.dropWhile pySpace).reverse

/-- Python's `str.strip("/")`: drop slashes from both ends. -/
def stripSlashes (s : Str) : Str :=
  ((s.dropWhile (fun c => c == '/')).reverse.dropWhile (fun c => c == '/')).reverse

/-- The `root/children` listing URL. -/
def rootChildrenUrl (drive_id : Str) : Str :=
  "https://graph.microsoft.com/v1.0/drives/".data ++ drive_id ++ "/root/children".data

/-- The path-addressed item URL `root:/<encoded>`. -/
def folderItemUrl (drive_id encoded : Str) : Str :=
  "https://graph.microsoft.com/v1.0/drives/".data ++ drive_id ++ "/root:/".data ++ encoded

/-- The `items/<id>/children` listing URL. -/
def childrenUrl (drive_id item_id : Str) : Str :=
  "https://graph.microsoft.com/v1.0/drives/".data ++ drive_id ++ "/items/".data ++
    item_id ++ "/children".data

/-- `SharePointClient.list_folder`.  `quote` is `requests.utils.quote` and
`get` the HTTP transport, both external.  An empty (after `strip()`) folder
name lists the root; otherwise the folder is resolved by path, and on any
non-200 status the code prints a message and lists the root instead; on 200
it lists the resolved folder's children.  The final `.json()` body is
returned; the function has no error outcome. -/
def list_folder (drive_id : Str) (quote : Str → Str) (get : Str → HttpResp)
    (folder_name : Str) : GraphBody :=
  if pyStrip folder_name = [] then (get (rootChildrenUrl drive_id)).body
  else
    let encoded := quote (stripSlashes folder_name)
    let resp := get (folderItemUrl drive_id encoded)
    if resp.status ≠ 200 then (get (rootChildrenUrl drive_id)).body
    else (get (childrenUrl drive_id resp.body.itemId)).body

/-- Claim C8: for a folder name that is non-empty after stripping, if the
folder resolution request returns any non-200 status, `list_folder` returns
the root listing's body: the fallback is silent, with no exception and no
not-found result (the return type has no such outcome). -/
theorem list_folder_fallback (drive_id : Str) (quote : Str → Str)
    (get : Str → HttpResp) (folder_name : Str)
    (hne : pyStrip folder_name ≠ [])
    (hstatus : (get (folderItemUrl drive_id (quote (stripSlashes folder_name)))).status ≠ 200) :
    list_folder drive_id quote get folder_name = (get (rootChildrenUrl drive_id)).body := by
  simp [list_folder, hne, hstatus]

/-- Witness for `list_folder_fallback`: a transport that answers 500
everywhere. -/
theorem list_folder_fallback_w :
    (pyStrip "x".data ≠ []) ∧
    ((((fun _ => ⟨500, ⟨[]⟩⟩ : Str → HttpResp)
        (folderItemUrl "d".data ((fun s => s) (stripSlashes "x".data)))).status ≠ 200)) ∧
    list_folder "d".data (fun s => s) (fun _ => ⟨500, ⟨[]⟩⟩) "x".data =
      ((fun _ => ⟨500, ⟨[]⟩⟩ : Str → HttpResp) (rootChildrenUrl "d".data)).body :=
  ⟨by decide, by decide,
    list_folder_fallback "d".data (fun s => s) (fun _ => ⟨500, ⟨[]⟩⟩) "x".data
      (by decide) (by decide)⟩

/-- The chunk loop of `upload_file` (large-file branch): on iteration `i`,
`f.read(chunk_size)` returns `min chunk_size remaining` bytes; an empty read
breaks the loop; otherwise the chunk is PUT with
`Content-Range: bytes <i*chunk_size>-<i*chunk_size+len(chunk)-1>/<file_size>`.
The result is the list of `(start, end)` pairs of the Content-Range headers
sent, in order. -/
def upload_chunks (chunkSize remaining i : Nat) : List (Nat × Nat) :=
  if min chunkSize remaining = 0 then []
  else
    (i * chunkSize, i * chunkSize + min chunkSize remaining - 1) ::
      upload_chunks chunkSize (remaining - min chunkSize remaining) (i + 1)
termination_by remaining
decreasing_by omega

/-- Which upload strategy `upload_file` uses, with the Content-Range intervals
of the chunked branch. -/
inductive UploadMethod
  | simplePut
  | uploadSession (ranges : List (Nat × Nat))
deriving DecidableEq

/-- `SharePointClient.upload_file`'s choice of strategy: a single simple PUT
for files of at most 4*1024*1024 bytes, otherwise an upload session whose
chunks are read `chunk_size` bytes at a time from offset 0. -/
def upload_file (fileSize chunkSize : Nat) : UploadMethod :=
  if fileSize ≤ 4 * 1024 * 1024 then .simplePut
  else .uploadSession (upload_chunks chunkSize fileSize 0)

/-- `rangesOk cs rs lo hi` checks that `rs` is a non-overlapping, contiguous
sequence of inclusive intervals that together cover exactly `[lo, hi]`, each
of length at most `cs`. -/
def rangesOk (cs : Nat) : List (Nat × Nat) → Nat → Nat → Bool
  | [], lo, hi => decide (lo = hi + 1)
  | (s, e) :: rest, lo, hi =>
      decide (s = lo) && decide (s ≤ e) && decide (e + 1 - s ≤ cs) &&
        rangesOk cs rest (e + 1) hi

theorem rangesOk_nil_iff (cs lo hi : Nat) :
    rangesOk cs ([] : List (Nat × Nat)) lo hi = true ↔ lo = hi + 1 := by
  simp [rangesOk]

theorem rangesOk_cons_iff (cs s e' lo hi : Nat) (rest : List (Nat × Nat)) :
    rangesOk cs ((s, e') :: rest) lo hi = true ↔
      s = lo ∧ s ≤ e' ∧ e' + 1 - s ≤ cs ∧ rangesOk cs rest (e' + 1) hi = true := by
  simp [rangesOk, and_assoc]

theorem upload_chunks_rangesOk (cs : Nat) (hcs : 0 < cs) :
    ∀ rem, 0 < rem → ∀ i,
      rangesOk cs (upload_chunks cs rem i) (i * cs) (i * cs + rem - 1) = true := by
  intro rem
  induction rem using Nat.strong_induction_on with
  | _ rem ih =>
    intro hrem i
    rw [upload_chunks]
    have hmin : ¬ (min cs rem = 0) := by omega
    rw [if_neg hmin]
    by_cases hlast : rem ≤ cs
    · have hmr : min cs rem = rem := by omega
      rw [hmr, show rem - rem = 0 from by omega, upload_chunks,
        if_pos (by omega), rangesOk_cons_iff, rangesOk_nil_iff]
      refine ⟨rfl, by omega, by omega, by omega⟩
    · have hmr : min cs rem = cs := by omega
      rw [hmr, rangesOk_cons_iff]
      refine ⟨rfl, by omega, by omega, ?_⟩
      have htail := ih (rem - cs) (by omega) (by omega) (i + 1)
      have hstep : (i + 1) * cs = i * cs + cs := by ring
      rw [hstep] at htail
      have h1 : i * cs + cs - 1 + 1 = i * cs + cs := by omega
      have h2 : i * cs + cs + (rem - cs) - 1 = i * cs + rem - 1 := by omega
      rw [h1]
      rw [h2] at htail
      exact htail

theorem upload_chunks_starts (cs : Nat) :
    ∀ rem i j, j < (upload_chunks cs rem i).length →
      ((upload_chunks cs rem i).getD j (0, 0)).1 = (i + j) * cs := by
  intro rem
  induction rem using Nat.strong_induction_on with
  | _ rem ih =>
    intro i j hj
    rw [upload_chunks] at hj ⊢
    by_cases hmin : min cs rem = 0
    · rw [if_pos hmin] at hj
      simp at hj
    · rw [if_neg hmin] at hj ⊢
      match j with
      | 0 => simp
      | j' + 1 =>
          simp only [List.length_cons, Nat.add_lt_add_iff_right] at hj
          have := ih (rem - min cs rem) (by omega) (i + 1) j' hj
          simpa [Nat.add_assoc, Nat.add_comm, Nat.add_left_comm] using this

/-- Claim C9: `upload_file` takes the single simple PUT exactly when the file
size is at most 4*1024*1024 bytes; for larger files it opens an upload
session whose Content-Range intervals start at `i * chunk_size`, are
contiguous and non-overlapping, each hold at most `chunk_size` bytes, and
together cover exactly bytes 0 through `file_size - 1`. -/
theorem upload_file_strategy (fileSize chunkSize : Nat) (hcs : 0 < chunkSize) :
    (upload_file fileSize chunkSize = .simplePut ↔ fileSize ≤ 4 * 1024 * 1024) ∧
    (4 * 1024 * 1024 < fileSize →
      upload_file fileSize chunkSize =
        .uploadSession (upload_chunks chunkSize fileSize 0) ∧
      rangesOk chunkSize (upload_chunks chunkSize fileSize 0) 0 (fileSize - 1) = true ∧
      ∀ j, j < (upload_chunks chunkSize fileSize 0).length →
        ((upload_chunks chunkSize fileSize 0).getD j (0, 0)).1 = j * chunkSize) := by
  constructor
  · constructor
    · intro h
      by_contra hgt
      rw [upload_file, if_neg hgt] at h
      exact UploadMethod.noConfusion h
    · intro h
      rw [upload_file, if_pos h]
  · intro h
    refine ⟨by rw [upload_file, if_neg (by omega)], ?_, ?_⟩
    · have := upload_chunks_rangesOk chunkSize hcs fileSize (by omega) 0
      simpa using this
    · intro j hj
      have := upload_chunks_starts chunkSize fileSize 0 j hj
      simpa using this

/-- Witness for `upload_file_strategy` at the default 5 MiB chunk size and a
file one byte over the simple-PUT limit. -/
theorem upload_file_strategy_w :
    (0 < 5 * 1024 * 1024) ∧
    ((upload_file (4 * 1024 * 1024 + 1) (5 * 1024 * 1024) = .simplePut ↔
        4 * 1024 * 1024 + 1 ≤ 4 * 1024 * 1024) ∧
    (4 * 1024 * 1024 < 4 * 1024 * 1024 + 1 →
      upload_file (4 * 1024 * 1024 + 1) (5 * 1024 * 1024) =
        .uploadSession (upload_chunks (5 * 1024 * 1024) (4 * 1024 * 1024 + 1) 0) ∧
      rangesOk (5 * 1024 * 1024) (upload_chunks (5 * 1024 * 1024) (4 * 1024 * 1024 + 1) 0)
        0 (4 * 1024 * 1024 + 1 - 1) = true ∧
      ∀ j, j < (upload_chunks (5 * 1024 * 1024) (4 * 1024 * 1024 + 1) 0).length →
        ((upload_chunks (5 * 1024 * 1024) (4 * 1024 * 1024 + 1) 0).getD j (0, 0)).1 =
          j * (5 * 1024 * 1024))) :=
  ⟨by decide, upload_file_strategy (4 * 1024 * 1024 + 1) (5 * 1024 * 1024) (by decide)⟩

/-- How `SharePointClient.delete_file` ends, mapped from the Python code:
`fileNotFound` is the explicit `raise FileNotFoundError`, `httpStatusError`
a `resp.raise_for_status()` failure on the resolution response, `returns b`
a normal `return b`, and `deleteFailed` the final
`raise Exception("Failed to delete ...")`. -/
inductive DeleteOutcome
  | fileNotFound
  | httpStatusError (code : Nat)
  | returns (b : Bool)
  | deleteFailed
deriving DecidableEq

/-- `SharePointClient.delete_file`, over the statuses of its two HTTP
requests: first the file is resolved by path (status `resolveStatus`); a 404
raises `FileNotFoundError`, any other 4xx/5xx raises through
`raise_for_status`.  Then the DELETE is issued (status `deleteStatus`): 204
or 200 returns `True`, anything else raises.  The JSON body of a successful
resolution is taken to contain the item's `"id"` (the Graph contract the code
relies on). -/
def delete_file (resolveStatus deleteStatus : Nat) : DeleteOutcome :=
  if resolveStatus = 404 then .fileNotFound
  else if 400 ≤ resolveStatus ∧ resolveStatus < 600 then .httpStatusError resolveStatus
  else if deleteStatus = 204 ∨ deleteStatus = 200 then .returns true
  else .deleteFailed

/-- Claim C10: `delete_file` raises `FileNotFoundError` exactly when the
resolution request returns 404; when the DELETE is reached, status 204 or
200 yields `True` and any other status raises; no execution returns
`False`. -/
theorem delete_file_behavior (resolveStatus deleteStatus : Nat) :
    (delete_file resolveStatus deleteStatus = .fileNotFound ↔ resolveStatus = 404) ∧
    (resolveStatus ≠ 404 → ¬ (400 ≤ resolveStatus ∧ resolveStatus < 600) →
      ((deleteStatus = 204 ∨ deleteStatus = 200) →
        delete_file resolveStatus deleteStatus = .returns true) ∧
      (¬ (deleteStatus = 204 ∨ deleteStatus = 200) →
        delete_file resolveStatus deleteStatus = .deleteFailed)) ∧
    delete_file resolveStatus deleteStatus ≠ .returns false := by
  unfold delete_file
  refine ⟨⟨?_, ?_⟩, ?_, ?_⟩
  · intro h
    by_contra hne
    rw [if_neg hne] at h
    split_ifs at h
  · intro h
    rw [if_pos h]
  · intro h404 hrfs
    rw [if_neg h404, if_neg hrfs]
    constructor
    · intro hdel
      rw [if_pos hdel]
    · intro hdel
      rw [if_neg hdel]
  · split_ifs <;> simp

/-- Witness for `delete_file_behavior`: a successful resolution (200)
followed by a 204 DELETE returns `True`. -/
theorem delete_file_behavior_w :
    ((200 : Nat) ≠ 404) ∧ (¬ (400 ≤ (200 : Nat) ∧ (200 : Nat) < 600)) ∧
    (((204 : Nat) = 204 ∨ (204 : Nat) = 200)) ∧
    delete_file 200 204 = .returns true :=
  ⟨by decide, by decide, by decide,
    ((delete_file_behavior 200 204).2.1 (by decide) (by decide)).1 (by decide)⟩
